import Mathlib

/-!
Verification development for the smbfs-x68k filesystem driver resident
(src/smbfs/smbfs.c).  The C code is shallowly embedded: machine integers
become `Nat` (with explicit `% 2^w` where overflow matters, and `Int` where
the C computation is signed), byte buffers become `List Nat`, external
collaborators (the libsmb2 protocol library, the iconv character-set
converter, the Human68k DOS API) become oracle parameters, and each request
handler becomes a pure function from the relevant state to results plus a
trace of the remote operations it issued.
-/

namespace Smbfs

/-- A byte value (0..255); kept as `Nat` with explicit reductions where the
C code truncates. -/
abbrev Byte := Nat

/-! ## External error-code constants

Human68k DOS error codes, from the external `<x68k/dos.h>` header
(Human68k ABI values), and POSIX errno values from newlib's `<errno.h>`.
These are interface constants of external collaborators, not repository
code. -/

def DOSE_NOENT : Int := -2
def DOSE_NODIR : Int := -3
def DOSE_MFILE : Int := -4
def DOSE_ISDIR : Int := -5
def DOSE_BADF : Int := -6
def DOSE_NOMEM : Int := -8
def DOSE_ILGMPTR : Int := -9
def DOSE_ILGFMT : Int := -11
def DOSE_ILGARG : Int := -12
def DOSE_ILGFNAME : Int := -13
def DOSE_ILGPARM : Int := -14
def DOSE_ILGDRV : Int := -15
def DOSE_ISCURDIR : Int := -16
def DOSE_NOMORE : Int := -18
def DOSE_RDONLY : Int := -19
def DOSE_EXISTDIR : Int := -20
def DOSE_NOTEMPTY : Int := -21
def DOSE_CANTREN : Int := -22
def DOSE_DISKFULL : Int := -23
def DOSE_DIRFULL : Int := -24
def DOSE_CANTSEEK : Int := -25
def DOSE_EXISTFILE : Int := -36

def E_NOENT : Nat := 2
def E_IOerr : Nat := 5
def E_BADF : Nat := 9
def E_AGAIN : Nat := 11
def E_NOMEM : Nat := 12
def E_FAULT : Nat := 14
def E_BUSY : Nat := 16
def E_EXIST : Nat := 17
def E_XDEV : Nat := 18
def E_NODEV : Nat := 19
def E_NOTDIR : Nat := 20
def E_ISDIR : Nat := 21
def E_INVAL : Nat := 22
def E_MFILE : Nat := 24
def E_NOSPC : Nat := 28
def E_ROFS : Nat := 30
def E_NAMETOOLONG : Nat := 91
def E_NOTEMPTY : Nat := 90
def E_OVERFLOW : Nat := 139
def E_ACCES : Nat := 13
def E_PERM : Nat := 1
def E_NOEXEC : Nat := 8

/-- `conv_errno` (smbfs.c): map an errno value to a Human68k error code. -/
def conv_errno (err : Nat) : Int :=
  if err = 0 then 0
  else if err = E_NOENT then DOSE_NOENT
  else if err = E_NOTDIR then DOSE_NODIR
  else if err = E_MFILE then DOSE_MFILE
  else if err = E_ISDIR then DOSE_ISDIR
  else if err = E_BADF then DOSE_BADF
  else if err = E_NOMEM then DOSE_NOMEM
  else if err = E_FAULT then DOSE_ILGMPTR
  else if err = E_NOEXEC then DOSE_ILGFMT
  else if err = E_NAMETOOLONG then DOSE_ILGFNAME
  else if err = E_INVAL then DOSE_ILGPARM
  else if err = E_XDEV then DOSE_ILGDRV
  else if err = E_ACCES then DOSE_RDONLY
  else if err = E_PERM then DOSE_RDONLY
  else if err = E_ROFS then DOSE_RDONLY
  else if err = E_NOTEMPTY then DOSE_NOTEMPTY
  else if err = E_NOSPC then DOSE_DISKFULL
  else if err = E_OVERFLOW then DOSE_CANTSEEK
  else if err = E_EXIST then DOSE_EXISTFILE
  else DOSE_ILGPARM

/-! ## Legacy (Shift-JIS) encoding helpers -/

/-- Lead-byte test used throughout smbfs.c (`dl_opendir` line 670,
`dl_readdir` lines 738 and 782): `(0x81 <= c && c <= 0x9f) || (0xe0 <= c &&
c <= 0xef)`. -/
def isSjisLead (c : Byte) : Bool :=
  (0x81 ≤ c ∧ c ≤ 0x9f) ∨ (0xe0 ≤ c ∧ c ≤ 0xef)

/-- C `tolower` in the "C" locale restricted to byte arguments: lowers
ASCII uppercase letters only. -/
def ctolower (c : Byte) : Byte :=
  if 0x41 ≤ c ∧ c ≤ 0x5a then c + 0x20 else c

/-! ## Wildcard matching (`dl_readdir`, smbfs.c lines 772-787)

The source compares the 21-byte candidate `w2` against the 21-byte search
pattern `dl->fname` with a running flag `f` that is `0x00` when the current
candidate byte is the trail byte of a Shift-JIS two-byte sequence and
`0x20` otherwise; `?` in the pattern matches any single byte; an uppercase
ASCII candidate byte is folded by `c | f`. -/

/-- The comparison loop of `dl_readdir`, one step per byte pair, carrying
the flag `f` (candidate bytes first, pattern bytes second). -/
def matchLoop (f : Nat) : List Byte → List Byte → Bool
  | [], _ => true
  | _, [] => true
  | c :: cs, d :: ds =>
    if d ≠ 0x3f ∧ (if 0x41 ≤ c ∧ c ≤ 0x5a then c ||| f else c) ≠ d then
      false
    else
      matchLoop (if f ≠ 0x00 ∧ isSjisLead c then 0x00 else 0x20) cs ds

/-- `dl_readdir`'s file-name comparison: candidate `w2` against pattern
`fname`, starting outside any two-byte sequence (`f = 0x20`). -/
def fname_match (w2 fname : List Byte) : Bool :=
  matchLoop 0x20 w2 fname

/-- Lead-byte range as the spec's glossary states it: 0x81-0x9F and
0xE0-0xFC.  (Definition follows the SPEC's words, for comparison with the
source's `isSjisLead`.) -/
def isSjisLeadSpecFC (c : Byte) : Bool :=
  (0x81 ≤ c ∧ c ≤ 0x9f) ∨ (0xe0 ≤ c ∧ c ≤ 0xfc)

/-- Byte-wise matcher written from the spec's words with the spec's claimed
lead-byte range 0xE0-0xFC: `?` matches one byte, uppercase ASCII candidate
bytes are lowered unless the current byte is a trail byte. -/
def matchSpecFC (inTrail : Bool) : List Byte → List Byte → Bool
  | [], _ => true
  | _, [] => true
  | c :: cs, d :: ds =>
    if d ≠ 0x3f ∧ (if inTrail then c else ctolower c) ≠ d then
      false
    else
      matchSpecFC (!inTrail && isSjisLeadSpecFC c) cs ds

/-- The same state-machine matcher with the lead-byte range the source
actually uses (0x81-0x9F, 0xE0-0xEF): the amended form of the claim. -/
def matchAmended (inTrail : Bool) : List Byte → List Byte → Bool
  | [], _ => true
  | _, [] => true
  | c :: cs, d :: ds =>
    if d ≠ 0x3f ∧ (if inTrail then c else ctolower c) ≠ d then
      false
    else
      matchAmended (!inTrail && isSjisLead c) cs ds

/-! ## Search-pattern construction (`dl_opendir`, smbfs.c lines 650-675) -/

/-- Replace the trailing run of bytes satisfying `p` by `0x00` (the
downward-counting trimming loops of `dl_opendir`); operates on the
reversed list. -/
def zeroTrailRev (p : Byte → Bool) : List Byte → List Byte
  | [] => []
  | c :: rest => if p c then 0 :: zeroTrailRev p rest else c :: rest

/-- Replace the trailing run of bytes satisfying `p` by `0x00`, keeping
the length. -/
def zeroTrail (p : Byte → Bool) (l : List Byte) : List Byte :=
  (zeroTrailRev p l.reverse).reverse

/-- The case-lowering loop of `dl_opendir` (lines 667-675): lowercase each
byte except that a Shift-JIS lead byte makes the loop skip the following
trail byte. -/
def sjisLower : List Byte → List Byte
  | [] => []
  | c :: rest =>
    if isSjisLead c then
      match rest with
      | [] => [c]
      | t :: rest2 => c :: t :: sjisLower rest2
    else
      ctolower c :: sjisLower rest

/-- `dl_opendir` lines 650-675: build the 21-byte search pattern
`dl->fname` from the request's `name1` (8 bytes), `name2` (10 bytes) and
`ext` (3 bytes): if `name1[7] == '?'` and `name2[0] == 0` fill `name2`
with `?`; zero the trailing NUL/space run of the 18-byte stem and the
trailing space run of the extension; then lowercase with lead-byte
skipping. -/
def buildFname (name1 name2 ext : List Byte) : List Byte :=
  let n2 :=
    if name1.getD 7 0 = 0x3f ∧ name2.getD 0 1 = 0 then
      List.replicate 10 0x3f
    else name2
  sjisLower (zeroTrail (fun c => c = 0 ∨ c = 0x20) (name1 ++ n2) ++
             zeroTrail (fun c => c = 0x20) ext)

/-! ## Packed name buffer and path translation (`conv_namebuf`,
smbfs.c lines 158-222) -/

/-- The host's packed name buffer (`struct dos_namestbuf`): 65-byte path
with 0x09 as directory separator, 8-byte primary name, 10-byte extended
primary name, 3-byte extension. -/
structure Namebuf where
  path : List Byte
  name1 : List Byte
  name2 : List Byte
  ext : List Byte

/-- `strcmp(ns->path, "\t") == 0`: the C-string held in the 65-byte path
array is exactly the single separator byte 0x09. -/
def isRootPath (p : List Byte) : Bool :=
  p.getD 0 0 = 0x09 ∧ p.getD 1 0 = 0

mutual

/-- Outer state of the path-section scan of `conv_namebuf` (lines
168-176): skip a run of 0x09 separators; stop at end or NUL; otherwise
emit `/` and enter the segment. -/
def pathSkipSep : List Byte → List Byte
  | [] => []
  | c :: rest =>
    if c = 0x09 then pathSkipSep rest
    else if c = 0 then []
    else 0x2f :: c :: pathSeg rest

/-- Inner state: copy segment bytes until NUL, separator or end of the
65-byte array. -/
def pathSeg : List Byte → List Byte
  | [] => []
  | c :: rest =>
    if c = 0 then []
    else if c = 0x09 then pathSkipSep rest
    else c :: pathSeg rest

end

/-- The full-name part of `conv_namebuf` (lines 178-195): `/`, the 18-byte
primary name with its trailing NULs then trailing spaces dropped, `.`, the
extension with trailing spaces dropped; finally the trailing run of `.` of
the whole assembled byte string is dropped. -/
def dropTrail (p : Byte → Bool) (l : List Byte) : List Byte :=
  (l.reverse.dropWhile p).reverse

/-- `conv_namebuf` (smbfs.c lines 158-222): translate a packed name buffer
into a host (remote) path.  `rootpath` is the unit's mount root path
(`none` when the unit is not mounted), `s2u` is the external
`iconv_s2u` legacy-to-Unicode converter (oracle; `none` = conversion
failure).  Returns `none` on failure. -/
def conv_namebuf (rootpath : Option String) (ns : Namebuf) (full : Bool)
    (s2u : List Byte → Option String) : Option String :=
  match rootpath with
  | none => none
  | some rp =>
    let bb0 := pathSkipSep (ns.path.take 65)
    let bb :=
      if full then
        dropTrail (fun c => c = 0x2e)
          (bb0 ++ 0x2f ::
            (dropTrail (fun c => c = 0x20)
              (dropTrail (fun c => c = 0) (ns.name1 ++ ns.name2)) ++
             0x2e :: dropTrail (fun c => c = 0x20) ns.ext))
      else bb0
    let rpChars := rp.data
    let rpAdj :=
      if rpChars.length ≥ 1 ∧ rpChars.getLast? = some '/' ∧
         bb.getD 0 0 = 0x2f then
        rpChars.dropLast
      else rpChars
    let needSlash : Bool :=
      rpChars.length ≥ 1 ∧ rpChars.getLast? ≠ some '/' ∧ bb.getD 0 0 ≠ 0x2f
    let bbAdj :=
      if rpChars.length = 0 ∧ bb.getD 0 0 = 0x2f then bb.drop 1 else bb
    match s2u bbAdj with
    | none => none
    | some conv =>
      some (String.mk (rpAdj ++ (if needSlash then ['/'] else []) ++
                       conv.data))

/-! ## File-information packing (`conv_statinfo`, smbfs.c lines 144-154) -/

/-- Broken-down local time as produced by the external `localtime`
(fields as in C `struct tm`: `tm_year` is years since 1900, `tm_mon` is
0-based). -/
structure Tm where
  tm_sec : Nat
  tm_min : Nat
  tm_hour : Nat
  tm_mday : Nat
  tm_mon : Nat
  tm_year : Nat

/-- The stat information of one remote entry as the driver consumes it:
the attribute byte produced by `FUNC_FILEMODE_ATTR` (repository macro in
fileop.h, carried here as an oracle value), the file size, and the local
broken-down modification time (`localtime(STAT_MTIME(st))`, oracle). -/
structure StatIn where
  attrByte : Byte
  size : Nat
  tm : Tm

/-- `htobe16` on the big-endian m68c host: identity on the 16-bit value. -/
def htobe16 (v : Nat) : Nat := v % 65536

/-- `htobe32` on the big-endian m68k host: identity on the 32-bit value. -/
def htobe32 (v : Nat) : Nat := v % 4294967296

/-- The host filesystem-info entry (`struct dos_filesinfo`): attribute
byte, packed 16-bit time and date, 32-bit length, up to 23-byte name. -/
structure FilesInfo where
  atr : Byte
  time : Nat
  date : Nat
  filelen : Nat
  name : List Byte

/-- `conv_statinfo` (smbfs.c lines 144-154): fill attribute, big-endian
size, and the packed time and date computed from the local mtime.
Note `tm_year - 80` uses truncated `Nat` subtraction; for years before
1980 the C source shifts a negative value (implementation-defined), and
all claims are stated for years 1980 and later. -/
def conv_statinfo (st : StatIn) (f : FilesInfo) : FilesInfo :=
  { f with
    atr := st.attrByte
    filelen := htobe32 st.size
    time := htobe16 ((st.tm.tm_hour <<< 11) ||| (st.tm.tm_min <<< 5) |||
                     (st.tm.tm_sec >>> 1))
    date := htobe16 (((st.tm.tm_year - 80) <<< 9) |||
                     ((st.tm.tm_mon + 1) <<< 5) ||| st.tm.tm_mday) }

/-- Big-endian byte pair of a 16-bit value. -/
def be16bytes (v : Nat) : List Byte := [v / 256 % 256, v % 256]

/-- Big-endian bytes of a 32-bit value. -/
def be32bytes (v : Nat) : List Byte :=
  [v / 16777216 % 256, v / 65536 % 256, v / 256 % 256, v % 256]

/-- Memory image of `struct dos_filesinfo` on the big-endian host: dummy
byte, attribute, 16-bit time, 16-bit date, 32-bit length, 23-byte
NUL-padded name. -/
def filesinfoBytes (f : FilesInfo) : List Byte :=
  0 :: f.atr :: (be16bytes f.time ++ be16bytes f.date ++
    be32bytes f.filelen ++ (f.name ++ List.replicate 23 0).take 23)

/-! ## Directory enumeration (`dirlist_t`, `dl_opendir`, `dl_readdir`,
smbfs.c lines 557-803) -/

/-- One entry of the remote directory iterator, together with the values
the external collaborators produce for it: `name` is the Unicode name
returned by `FUNC_READDIR`; `sjis` is what the external `iconv_u2s`
conversion writes for it (`none` = conversion failure); `stat` carries the
attribute byte, size and local mtime obtained from `DIRENT_STAT`. -/
structure Dirent where
  name : String
  sjis : List Byte
  sjisOk : Bool
  stat : StatIn

/-- The per-cursor state `dirlist_t`: keyed by the host-supplied `filep`
address, with the directory described by the remaining entries of the
remote iterator (`entries`); `dirOpen` models `dl->dir != DIR_BADDIR`. -/
structure DirList where
  filep : Nat
  unit : Nat
  isroot : Bool
  isfirst : Bool
  attr : Byte
  fname : List Byte
  hostpath : String
  dirOpen : Bool
  entries : List Dirent

/-- `dl_free` (smbfs.c lines 574-582): close the iterator and release the
key. -/
def dl_free (dl : DirList) : DirList :=
  { dl with dirOpen := false, filep := 0 }

/-- The forbidden file-name bytes of `dl_readdir` line 744: the characters
of the C string literal with slash, backslash, comma, semicolon, angle
brackets, equals, square brackets and vertical bar. -/
def forbiddenBytes : List Byte :=
  [0x2f, 0x5c, 0x2c, 0x3b, 0x3c, 0x3d, 0x3e, 0x5b, 0x5d, 0x7c]

/-- The name-validity scan of `dl_readdir` (lines 734-748) over the
NUL-terminated 23-byte `fi->name` buffer.  Returns the final value of `c`:
zero means the name is acceptable, nonzero means it holds a forbidden
byte (or the scan ran past the buffer inside a two-byte sequence).
`first` tracks `i == 0` for the leading `-` check. -/
def nameScan (first : Bool) : List Byte → Byte
  | [] => 0
  | c :: rest =>
    if c = 0 then 0
    else if isSjisLead c then
      match rest with
      | [] => c
      | _ :: rest2 => nameScan false rest2
    else if c ≤ 0x1f ∨ (c = 0x2d ∧ first) ∨ c ∈ forbiddenBytes then c
    else nameScan false rest

/-- The 23-byte scan buffer: the converted name bytes, NUL terminator,
zero fill (bytes past the terminator are stale memory in C; they are only
reachable when a lead byte immediately precedes the terminator, and are
modelled as zero). -/
def scanBuf (sjis : List Byte) : List Byte :=
  ((sjis ++ [0]) ++ List.replicate 23 0).take 23

/-- The name-splitting step of `dl_readdir` (lines 752-766): split the
converted C-string name into an 18-byte stem and 3-byte extension,
producing the 21-byte candidate `w2`; `none` when the stem exceeds 18
bytes. -/
def splitName (sjis : List Byte) : Option (List Byte) :=
  let b := sjis.takeWhile (fun c => c ≠ 0)
  let k := b.length
  let m :=
    if b.getD (k - 1) 0 = 0x2e then k
    else if k ≥ 3 ∧ b.getD (k - 2) 0 = 0x2e then k - 2
    else if k ≥ 4 ∧ b.getD (k - 3) 0 = 0x2e then k - 3
    else if k ≥ 5 ∧ b.getD (k - 4) 0 = 0x2e then k - 4
    else k
  if m > 18 then none
  else
    some ((b.take m ++ List.replicate 18 0).take 18 ++
          (if b.getD m 0 = 0x2e then
            ((b.drop (m + 1)).take 3 ++ List.replicate 3 0).take 3
           else [0, 0, 0]))

/-- Result of one `dl_readdir` call: the emitted filesystem-info entry (if
any), whether it was produced by the synthetic volume-label branch, and
the updated cursor. -/
structure ReadResult where
  info : Option FilesInfo
  volLabel : Bool
  dl : DirList

/-- The iteration loop of `dl_readdir` (lines 715-802) over the remaining
remote entries: skip `.`/`..` at the root, skip names the converter
rejects, names with forbidden bytes, names with over-long stems, names
that fail the wildcard match, files of 2^32 bytes or more, and entries
whose attribute byte does not meet the mask; emit the first survivor.
When the iterator is exhausted, `dl_free` the cursor. -/
def dl_scan (dl : DirList) : List Dirent → ReadResult
  | [] => { info := none, volLabel := false, dl := dl_free { dl with entries := [] } }
  | d :: rest =>
    if dl.isroot ∧ (d.name = "." ∨ d.name = "..") then
      dl_scan dl rest
    else if ¬ d.sjisOk then
      dl_scan dl rest
    else if nameScan true (scanBuf d.sjis) ≠ 0 then
      dl_scan dl rest
    else
      match splitName d.sjis with
      | none => dl_scan dl rest
      | some w2 =>
        if ¬ fname_match w2 dl.fname then
          dl_scan dl rest
        else if 0xffffffff < d.stat.size then
          dl_scan dl rest
        else
          let fi := conv_statinfo d.stat
            { atr := 0, time := 0, date := 0, filelen := 0, name := d.sjis }
          if fi.atr &&& dl.attr = 0 then
            dl_scan dl rest
          else
            { info := some fi, volLabel := false,
              dl := { dl with entries := rest } }

/-- `dl_readdir` (smbfs.c lines 692-803).  `u2s` is the external
`iconv_u2s` converter used for the volume-label name (oracle; the source
ignores its return status and uses whatever bytes were written, bounded by
the 21-byte destination). -/
def dl_readdir (u2s : String → List Byte) (dl : DirList) : ReadResult :=
  if dl.isfirst ∧ dl.isroot ∧ dl.attr &&& 0x08 ≠ 0 ∧
     dl.fname.getD 0 0 = 0x3f ∧ dl.fname.getD 18 0 = 0x3f then
    { info := some
        { atr := 0x08, time := 0, date := 0, filelen := 0,
          name := (u2s dl.hostpath).take 21 },
      volLabel := true,
      dl := { dl with isfirst := false } }
  else
    dl_scan { dl with isfirst := false } dl.entries

/-- `dl_opendir` (smbfs.c lines 631-690): allocate the cursor under the
host key, translate the search path, record whether the directory is the
virtual root, build the search pattern, and open the remote iterator.
Oracles: `s2u` for `conv_namebuf`; `allocOk` for the `dl_alloc`
reallocation; `openRes` for `FUNC_OPENDIR` (`Except.error e` = failure
with errno `e`, `Except.ok l` = iterator contents). -/
def dl_opendir (rootpath : Option String)
    (s2u : List Byte → Option String)
    (allocOk : Bool) (openRes : Except Nat (List Dirent))
    (key unit : Nat) (ns : Namebuf) (attr : Byte) :
    Except Nat DirList :=
  if ¬ allocOk then .error E_NOMEM
  else
    match conv_namebuf rootpath ns false s2u with
    | none => .error E_NOENT
    | some hostpath =>
      match openRes with
      | .error e => .error e
      | .ok entries =>
        .ok { filep := key, unit := unit,
              isroot := isRootPath ns.path,
              isfirst := true, attr := attr,
              fname := buildFname ns.name1 ns.name2 ns.ext,
              hostpath := hostpath, dirOpen := true, entries := entries }

/-! ## chdir (`op_chdir`, smbfs.c lines 387-412) -/

/-- Remote protocol operations issued by a handler (the trace of calls
into the external protocol library). -/
inductive RemoteOp where
  | statPath (path : String)
  | lseek (pos : Nat)
  | readBytes (len : Nat)
  | writeBytes (len : Nat)
  | ftruncate (len : Nat)
deriving DecidableEq, Repr

/-- Result of the external `FUNC_STAT` wrapper: `none` = failure,
otherwise whether the remote object is a directory. -/
structure StatRes where
  isDir : Bool

/-- `op_chdir` (smbfs.c lines 387-412): a path equal to the single
separator byte (the virtual root) succeeds immediately; otherwise the
path is translated (failing with no-such-directory when the unit is
unmounted or conversion fails) and the remote object must stat as a
directory.  Returns the Human68k status and the trace of remote calls. -/
def op_chdir (rootpath : Option String)
    (s2u : List Byte → Option String)
    (statOracle : String → Option StatRes)
    (ns : Namebuf) : Int × List RemoteOp :=
  if isRootPath ns.path then
    (0, [])
  else
    match conv_namebuf rootpath ns false s2u with
    | none => (DOSE_NODIR, [])
    | some path =>
      match statOracle path with
      | none => (DOSE_NODIR, [RemoteOp.statPath path])
      | some st =>
        if ¬ st.isDir then (DOSE_NODIR, [RemoteOp.statPath path])
        else (0, [RemoteOp.statPath path])

/-! ## File operations (`op_seek`, `op_read`, `op_write`,
smbfs.c lines 1047-1151) -/

/-- The host file-control-block fields the driver touches: open-mode byte
(offset 14), 32-bit file position (offset 6) and 32-bit file size
(offset 64). -/
structure Fcb where
  mode : Byte
  fpos : Nat
  size : Nat
deriving DecidableEq, Repr

/-- The driver's per-open-file entry `fdinfo_t`: host FCB key, remote file
handle, authoritative in-driver position cursor, owning unit. -/
structure FdInfo where
  fcb : Nat
  fd : Nat
  pos : Nat
  unit : Nat
deriving DecidableEq, Repr

/-- Abstract remote file state behind an open handle: current size and the
remote file offset the protocol layer maintains. -/
structure RemoteFile where
  size : Nat
  off : Nat
deriving DecidableEq, Repr

/-- The 32-bit unsigned value of the Human68k `cannot-seek` code, as it
appears after the assignment `pos = _DOSE_CANTSEEK` to the `uint32_t`
variable of `op_seek`. -/
def cantseekU32 : Nat := (DOSE_CANTSEEK.emod 4294967296).toNat

/-- `op_seek` (smbfs.c lines 1137-1151): compute the target position from
the FCB's position and size fields only (`whence` 0 = offset, 1 =
position + offset, anything else = size + offset, in 32-bit unsigned
arithmetic); past-end targets yield `cannot-seek` and leave the FCB
unchanged, otherwise the target is stored into the position field and
returned.  The returned `Nat` is the `uint32_t` value of the local `pos`
variable (which the dispatcher stores into the 32-bit status field). -/
def op_seek (fcb : Fcb) (whence : Byte) (offset : Int) : Fcb × Nat :=
  let base : Nat := if whence = 0 then 0 else if whence = 1 then fcb.fpos else fcb.size
  let pos : Nat := (((base : Int) + offset).emod 4294967296).toNat
  if pos > fcb.size then
    (fcb, cantseekU32)
  else
    ({ fcb with fpos := pos }, pos)

/-- Oracle outcomes of the external protocol calls made by one
`op_read`: the result of `FUNC_LSEEK` when a reconciliation seek is
needed (`none` = success, `some e` = failure with errno `e`), and the
result of `FUNC_READ` (`Except.error e` = failure, `Except.ok n` = `n`
bytes read). -/
structure ReadEnv where
  seekErr : Option Nat
  readRes : Except Nat Nat

/-- `op_read` (smbfs.c lines 1047-1081): if the FCB position differs from
the in-driver cursor `pos`, issue a remote seek to the FCB position (on
failure return the mapped errno); read; advance `pos` by the bytes read
and write it back into the FCB position field (32-bit).  Returns the
status value, the updated entry, FCB and remote state, and the trace. -/
def op_read (env : ReadEnv) (fi : FdInfo) (fcb : Fcb) (rem : RemoteFile)
    (len : Nat) : Int × FdInfo × Fcb × RemoteFile × List RemoteOp :=
  let seekNeeded := fi.pos ≠ fcb.fpos
  if seekNeeded ∧ env.seekErr.isSome then
    (conv_errno (env.seekErr.getD 0), fi, fcb, rem, [RemoteOp.lseek fcb.fpos])
  else
    let fi1 := if seekNeeded then { fi with pos := fcb.fpos } else fi
    let rem1 := if seekNeeded then { rem with off := fcb.fpos } else rem
    let tr0 := if seekNeeded then [RemoteOp.lseek fcb.fpos] else []
    match env.readRes with
    | .error e => (conv_errno e, fi1, fcb, rem1, tr0 ++ [RemoteOp.readBytes len])
    | .ok bytes =>
      let fi2 := { fi1 with pos := fi1.pos + bytes }
      ((bytes : Int), fi2, { fcb with fpos := fi2.pos % 4294967296 },
       { rem1 with off := rem1.off + bytes }, tr0 ++ [RemoteOp.readBytes len])

/-- Oracle outcomes of the external protocol calls made by one
`op_write`: the result of `FUNC_FTRUNCATE` (used only for length 0), the
result of the reconciliation `FUNC_LSEEK`, and the result of
`FUNC_WRITE`. -/
structure WriteEnv where
  truncErr : Option Nat
  seekErr : Option Nat
  writeRes : Except Nat Nat

/-- `op_write` (smbfs.c lines 1085-1133): a zero-length write truncates
the remote file at the FCB's current position and sets the FCB size field
to that position; otherwise the position is reconciled exactly as in
`op_read`, the data is written, `pos` advances, the FCB position is
updated and the FCB size grows when the position passed it. -/
def op_write (env : WriteEnv) (fi : FdInfo) (fcb : Fcb) (rem : RemoteFile)
    (len : Nat) : Int × FdInfo × Fcb × RemoteFile × List RemoteOp :=
  if len = 0 then
    match env.truncErr with
    | some e => (conv_errno e, fi, fcb, rem, [RemoteOp.ftruncate fcb.fpos])
    | none =>
      (0, fi, { fcb with size := fcb.fpos },
       { rem with size := fcb.fpos },
       [RemoteOp.ftruncate fcb.fpos])
  else
    let seekNeeded := fi.pos ≠ fcb.fpos
    if seekNeeded ∧ env.seekErr.isSome then
      (conv_errno (env.seekErr.getD 0), fi, fcb, rem, [RemoteOp.lseek fcb.fpos])
    else
      let fi1 := if seekNeeded then { fi with pos := fcb.fpos } else fi
      let rem1 := if seekNeeded then { rem with off := fcb.fpos } else rem
      let tr0 := if seekNeeded then [RemoteOp.lseek fcb.fpos] else []
      match env.writeRes with
      | .error e => (conv_errno e, fi1, fcb, rem1, tr0 ++ [RemoteOp.writeBytes len])
      | .ok bytes =>
        let fi2 := { fi1 with pos := fi1.pos + bytes }
        let fpos2 := fi2.pos % 4294967296
        ((bytes : Int), fi2,
         { fcb with fpos := fpos2,
                    size := if fpos2 > fcb.size then fpos2 else fcb.size },
         { rem1 with off := rem1.off + bytes,
                     size := max rem1.size (rem1.off + bytes) },
         tr0 ++ [RemoteOp.writeBytes len])

/-! ## Mount manager (`check_dpb_busy`, `op_do_mount`, `op_do_unmount`,
`op_do_unmountall`, smbfs.c lines 350-366 and 1288-1443) -/

/-- MAXUNIT (smbfs.c line 58). -/
def MAXUNIT : Nat := 8

/-- A live entry of the driver's open-file table `fi_store`; `fd = none`
models `FD_BADFD`. -/
structure FdEntry where
  fcb : Nat
  fd : Option Nat
  pos : Nat
  unit : Nat
deriving DecidableEq, Repr

/-- Process-wide mutable driver state: per-unit context handle and root
path (`rootsmb2[]`, `rootpath[]`, both of length MAXUNIT), and the two
key-addressed stores. -/
structure MountState where
  rootsmb2 : List (Option Nat)
  rootpath : List (Option String)
  fiStore : List FdEntry
  dlStore : List DirList

/-- One slot of the host OS's open-file (FCB) table, as consumed by
`check_dpb_busy`: the unit index of the drive-parameter-block the open
file's `deventry` points at (`none` when it points at another driver's
DPB). -/
abbrev HostFcbTable := List (Option Nat)

/-- `check_dpb_busy` (smbfs.c lines 350-366) for the DPB of `unit`: some
open host file's drive-parameter-block pointer equals this unit's. -/
def check_dpb_busy (tbl : HostFcbTable) (unit : Nat) : Bool :=
  tbl.any (fun e => e = some unit)

/-- `fi_freeall` (smbfs.c lines 919-928): close and clear every open-file
entry of the unit. -/
def fi_freeall (unit : Nat) (store : List FdEntry) : List FdEntry :=
  store.map (fun e =>
    if e.fd.isSome ∧ e.unit = unit then
      { e with fd := none, fcb := 0 }
    else e)

/-- `dl_freeall` (smbfs.c lines 621-629): free every live cursor of the
unit. -/
def dl_freeall (unit : Nat) (store : List DirList) : List DirList :=
  store.map (fun dl =>
    if dl.filep ≠ 0 ∧ dl.unit = unit then dl_free dl else dl)

/-- `op_do_unmount_one` (smbfs.c lines 1393-1402): free the unit's file
handles and cursors, disconnect and destroy the context, free the root
path. -/
def op_do_unmount_one (unit : Nat) (st : MountState) : MountState :=
  { rootsmb2 := st.rootsmb2.set unit none
    rootpath := st.rootpath.set unit none
    fiStore := fi_freeall unit st.fiStore
    dlStore := dl_freeall unit st.dlStore }

/-- `op_do_unmountall` (smbfs.c lines 1423-1443): first walk all MAXUNIT
units and fail with `EBUSY` if any mounted unit's DPB is in use by an open
host file; only then tear down every mounted unit. -/
def op_do_unmountall (tbl : HostFcbTable) (st : MountState) :
    Int × MountState :=
  if (List.range MAXUNIT).any (fun unit =>
       (st.rootsmb2.getD unit none).isSome && check_dpb_busy tbl unit) then
    (-(E_BUSY : Int), st)
  else
    (0, (List.range MAXUNIT).foldl (fun s unit =>
          if (s.rootsmb2.getD unit none).isSome then
            op_do_unmount_one unit s
          else s) st)

/-- `op_do_unmount` (smbfs.c lines 1404-1421). -/
def op_do_unmount (tbl : HostFcbTable) (unit : Nat) (st : MountState) :
    Int × MountState :=
  if (st.rootsmb2.getD unit none).isNone then (-(E_NOENT : Int), st)
  else if check_dpb_busy tbl unit then (-(E_BUSY : Int), st)
  else (0, op_do_unmount_one unit st)

/-- The parsed URL produced by the external `smb2_parse_url`. -/
structure UrlParts where
  user : Option String
  server : String
  share : String
  path : Option String

/-- Calls into the external protocol library made by the mount flow
(the trace used to show that a failed precondition allocates nothing). -/
inductive MountOp where
  | initContext
  | parseUrl
  | setUser (u : String)
  | setPassword
  | setSecurity
  | connectShare (server share : String)
  | statPath (p : String)
  | disconnect
  | destroyContext
deriving DecidableEq, Repr

/-- The mount IOCTL payload (`struct smbcmd_mount`): URL, optional
username and password, and the caller's username buffer length. -/
structure MountPayload where
  url : String
  username : Option String
  password : Option String
  username_len : Nat

/-- Oracle outcomes of the external calls of one `op_do_mount`:
context allocation, URL parsing, the credentials held by the context
after the set-user/set-password sequence (absorbing the URL-embedded and
NTLM-file credentials), connection, the stat of the URL's root subpath,
the root-path allocation, and the Unicode-to-legacy converter used for
the username write-back. -/
structure MountEnv where
  ctxId : Nat
  initOk : Bool
  parsed : Option UrlParts
  resolvedUser : String
  resolvedPassword : Option String
  connectOk : Bool
  statRes : Option StatRes
  mallocOk : Bool
  u2s : String → String

/-- `op_do_mount` (smbfs.c lines 1288-1391).  Returns the negated-errno
status, the updated state, the trace of protocol-library calls, and the
username write-back performed by the ask-for-password (`EAGAIN`) branch
(truncated to the caller's buffer, with the updated length field). -/
def op_do_mount (env : MountEnv) (unit : Nat) (mnt : MountPayload)
    (st : MountState) :
    Int × MountState × List MountOp × Option (String × Nat) :=
  if (st.rootsmb2.getD unit none).isSome then
    (-(E_EXIST : Int), st, [], none)
  else if ¬ env.initOk then
    (-(E_NOMEM : Int), st, [MountOp.initContext], none)
  else
    match env.parsed with
    | none =>
      (-(E_INVAL : Int), st,
       [MountOp.initContext, MountOp.parseUrl, MountOp.disconnect,
        MountOp.destroyContext], none)
    | some url =>
      let credOps :=
        (match url.user with
         | some u => [MountOp.setUser u]
         | none => []) ++
        (match mnt.username with
         | some u => if u ≠ "" then [MountOp.setUser u] else []
         | none => []) ++
        (match mnt.password with
         | some _ => [MountOp.setPassword]
         | none => [])
      let tr0 := [MountOp.initContext, MountOp.parseUrl] ++ credOps
      match env.resolvedPassword with
      | none =>
        let sjisUser := env.u2s env.resolvedUser
        (-(E_AGAIN : Int), st,
         tr0 ++ [MountOp.disconnect, MountOp.destroyContext],
         some (String.mk (sjisUser.data.take (mnt.username_len - 1)),
               env.resolvedUser.length + 1))
      | some _ =>
        let tr1 := tr0 ++ [MountOp.setSecurity,
                           MountOp.connectShare url.server url.share]
        if ¬ env.connectOk then
          (-(E_IOerr : Int), st,
           tr1 ++ [MountOp.disconnect, MountOp.destroyContext], none)
        else
          let stC := { st with rootsmb2 := st.rootsmb2.set unit (some env.ctxId) }
          let hasPath := match url.path with
                         | some p => p ≠ ""
                         | none => False
          let statOps := match url.path with
                         | some p => if p ≠ "" then [MountOp.statPath p] else []
                         | none => []
          let statFail : Bool := hasPath &&
            (match env.statRes with
             | none => true
             | some r => !r.isDir)
          if statFail then
            (-(E_NOTDIR : Int),
             { stC with rootsmb2 := stC.rootsmb2.set unit none },
             tr1 ++ statOps ++ [MountOp.disconnect, MountOp.destroyContext],
             none)
          else if ¬ env.mallocOk then
            (-(E_NOMEM : Int),
             { stC with rootsmb2 := stC.rootsmb2.set unit none },
             tr1 ++ statOps ++ [MountOp.disconnect, MountOp.destroyContext],
             none)
          else
            let rp : String := match url.path with
                               | some p => p
                               | none => ""
            (0,
             { stC with rootpath := stC.rootpath.set unit (some rp) },
             tr1 ++ statOps, none)

/-! ## Resident installer command line (`my_atoi`, `start`,
smbfs.c lines 370-377 and 1662-1711) -/

/-- `my_atoi` (smbfs.c lines 370-377): consume a run of decimal digits. -/
def my_atoi (acc : Nat) : List Char → Nat × List Char
  | [] => (acc, [])
  | c :: rest =>
    if '0' ≤ c ∧ c ≤ '9' then
      my_atoi (acc * 10 + (c.toNat - 48)) rest
    else (acc, c :: rest)

/-- The options accumulated by the flag loop of `start`. -/
structure StartOpts where
  units : Nat
  heap : Nat
  release : Bool
  debuglevel : Nat
deriving DecidableEq, Repr

/-- Initial option values of `start`: one unit, 128 KiB heap, no remove
mode. -/
def startOptsInit : StartOpts :=
  { units := 1, heap := 131072, release := false, debuglevel := 0 }

theorem my_atoi_length_le (acc : Nat) (l : List Char) :
    (my_atoi acc l).2.length ≤ l.length := by
  induction l generalizing acc with
  | nil => simp [my_atoi]
  | cons c rest ih =>
    rw [my_atoi]
    by_cases h : '0' ≤ c ∧ c ≤ '9'
    · simp only [if_pos h]
      exact le_trans (ih _) (Nat.le_succ _)
    · simp [if_neg h]

/-- The command-line flag loop of `start` (smbfs.c lines 1666-1711, DEBUG
build so that `-D` is accepted as the spec describes): `.error 1` models
`usage()`, which prints the usage text and exits with code 1 before
installing anything.  Note the unit-count test is the source's
`arg >= 1 || arg <= MAXUNIT`. -/
def parseArgs (o : StartOpts) (l : List Char) : Except Nat StartOpts :=
  match l with
  | [] => .ok o
  | c :: rest =>
    if c = ' ' ∨ c = '\t' then parseArgs o rest
    else if c = '/' ∨ c = '-' then
      match rest with
      | [] => .error 1
      | c2 :: rest2 =>
        if c2 = 'D' then
          parseArgs { o with debuglevel := o.debuglevel + 1 } rest2
        else if c2 = 'd' ∨ c2 = 'u' then
          let r := my_atoi 0 rest2
          if r.1 ≥ 1 ∨ r.1 ≤ MAXUNIT then
            parseArgs { o with units := r.1 } r.2
          else .error 1
        else if c2 = 'm' then
          let r := my_atoi 0 rest2
          if r.1 ≥ 96 then
            parseArgs { o with heap := r.1 * 1024 } r.2
          else .error 1
        else if c2 = 'r' then
          parseArgs { o with release := true } rest2
        else .error 1
    else .error 1
termination_by l.length
decreasing_by
  all_goals simp_wf
  all_goals try omega
  all_goals exact Nat.lt_succ_of_lt (Nat.lt_succ_of_le (my_atoi_length_le 0 rest))

/-! ## Spec-side formulas (written from the spec's words, for comparison
with the source embeddings) -/

/-- Packed date formula as the spec states it:
`((year - 1980) << 9) | (month << 5) | day`. -/
def packedDate (year month day : Nat) : Nat :=
  ((year - 1980) <<< 9) ||| (month <<< 5) ||| day

/-- Packed time formula as the spec states it:
`(hour << 11) | (minute << 5) | (seconds / 2)`. -/
def packedTime (hour minute sec : Nat) : Nat :=
  (hour <<< 11) ||| (minute <<< 5) ||| (sec / 2)

/-- The seek target as the spec states it: whence 0 = offset, whence 1 =
position + offset, whence 2 = size + offset, in 32-bit unsigned
arithmetic. -/
def seekTarget (fcb : Fcb) (whence : Byte) (offset : Int) : Nat :=
  let base : Nat :=
    if whence = 0 then 0 else if whence = 1 then fcb.fpos else fcb.size
  (((base : Int) + offset).emod 4294967296).toNat

/-! ## Claim theorems -/

/-- C9: for every filesystem-info entry produced by `conv_statinfo` (used
by both enumeration and filedate-read), the packed date equals
`((year - 1980) << 9) | (month << 5) | day` and the packed time equals
`(hour << 11) | (minute << 5) | (seconds / 2)`, computed from the entry's
local mtime, and the two 16-bit fields are stored big-endian at offsets
2-3 (time) and 4-5 (date) of the entry. -/
theorem conv_statinfo_packs_date_time (st : StatIn) (f : FilesInfo)
    (hy : 1980 ≤ st.tm.tm_year + 1900) (hy2 : st.tm.tm_year + 1900 ≤ 2079)
    (hmon : st.tm.tm_mon + 1 ≤ 12) (hd : st.tm.tm_mday ≤ 31)
    (hh : st.tm.tm_hour ≤ 23) (hmin : st.tm.tm_min ≤ 59)
    (hs : st.tm.tm_sec ≤ 61) :
    (conv_statinfo st f).date =
      packedDate (st.tm.tm_year + 1900) (st.tm.tm_mon + 1) st.tm.tm_mday ∧
    (conv_statinfo st f).time =
      packedTime st.tm.tm_hour st.tm.tm_min st.tm.tm_sec ∧
    ((filesinfoBytes (conv_statinfo st f)).drop 2).take 2 =
      be16bytes (packedTime st.tm.tm_hour st.tm.tm_min st.tm.tm_sec) ∧
    ((filesinfoBytes (conv_statinfo st f)).drop 4).take 2 =
      be16bytes (packedDate (st.tm.tm_year + 1900) (st.tm.tm_mon + 1)
        st.tm.tm_mday) := by
  have hsh9 : (st.tm.tm_year - 80) <<< 9 = (st.tm.tm_year - 80) * 512 := by
    rw [Nat.shiftLeft_eq]
  have hsh5 : (st.tm.tm_mon + 1) <<< 5 = (st.tm.tm_mon + 1) * 32 := by
    rw [Nat.shiftLeft_eq]
  have hsh11 : st.tm.tm_hour <<< 11 = st.tm.tm_hour * 2048 := by
    rw [Nat.shiftLeft_eq]
  have hsh5m : st.tm.tm_min <<< 5 = st.tm.tm_min * 32 := by
    rw [Nat.shiftLeft_eq]
  have hdiv : st.tm.tm_sec >>> 1 = st.tm.tm_sec / 2 := by
    rw [Nat.shiftRight_eq_div_pow]
  have hdateBound :
      ((st.tm.tm_year - 80) <<< 9) ||| ((st.tm.tm_mon + 1) <<< 5) |||
        st.tm.tm_mday < 2 ^ 16 := by
    refine Nat.or_lt_two_pow (Nat.or_lt_two_pow ?_ ?_) ?_
    · rw [hsh9]; omega
    · rw [hsh5]; omega
    · omega
  have htimeBound :
      (st.tm.tm_hour <<< 11) ||| (st.tm.tm_min <<< 5) |||
        (st.tm.tm_sec >>> 1) < 2 ^ 16 := by
    refine Nat.or_lt_two_pow (Nat.or_lt_two_pow ?_ ?_) ?_
    · rw [hsh11]; omega
    · rw [hsh5m]; omega
    · rw [hdiv]; omega
  have hyear : st.tm.tm_year + 1900 - 1980 = st.tm.tm_year - 80 := by omega
  have hdate : (conv_statinfo st f).date =
      packedDate (st.tm.tm_year + 1900) (st.tm.tm_mon + 1) st.tm.tm_mday := by
    simp only [conv_statinfo, htobe16, packedDate, hyear]
    exact Nat.mod_eq_of_lt hdateBound
  have htime : (conv_statinfo st f).time =
      packedTime st.tm.tm_hour st.tm.tm_min st.tm.tm_sec := by
    simp only [conv_statinfo, htobe16, packedTime, hdiv]
    rw [← hdiv]
    exact Nat.mod_eq_of_lt htimeBound
  refine ⟨hdate, htime, ?_, ?_⟩
  · simp [filesinfoBytes, be16bytes, htime]
  · simp [filesinfoBytes, be16bytes, hdate]

/-- Witness for `conv_statinfo_packs_date_time` at a concrete stat value
(2023-07-05 04:03:02 local time, size 7, attribute 0x20). -/
theorem conv_statinfo_packs_date_time_witness :
    (conv_statinfo
      { attrByte := 0x20, size := 7,
        tm := { tm_sec := 2, tm_min := 3, tm_hour := 4, tm_mday := 5,
                tm_mon := 6, tm_year := 123 } }
      { atr := 0, time := 0, date := 0, filelen := 0, name := [] }).date =
      packedDate 2023 7 5 :=
  (conv_statinfo_packs_date_time
    { attrByte := 0x20, size := 7,
      tm := { tm_sec := 2, tm_min := 3, tm_hour := 4, tm_mday := 5,
              tm_mon := 6, tm_year := 123 } }
    { atr := 0, time := 0, date := 0, filelen := 0, name := [] }
    (by decide) (by decide) (by decide) (by decide)
    (by decide) (by decide) (by decide)).1

/-- C4: `op_seek` computes the target purely from the FCB's position and
size fields (whence 0 = offset, 1 = position + offset, 2 = size + offset);
a target beyond the size field returns `cannot-seek` (as the 32-bit status
value) and leaves the FCB untouched, otherwise the target is written into
the position field and returned. -/
theorem op_seek_correct (fcb : Fcb) (whence : Byte) (offset : Int)
    (_hw : whence = 0 ∨ whence = 1 ∨ whence = 2) :
    (seekTarget fcb whence offset > fcb.size →
       op_seek fcb whence offset = (fcb, cantseekU32)) ∧
    (seekTarget fcb whence offset ≤ fcb.size →
       op_seek fcb whence offset =
         ({ fcb with fpos := seekTarget fcb whence offset },
          seekTarget fcb whence offset)) := by
  refine ⟨fun h => ?_, fun h => ?_⟩ <;>
    simp only [op_seek, seekTarget] at h ⊢
  · rw [if_pos h]
  · rw [if_neg (by omega)]

/-- Witness for `op_seek_correct`: with position 50 and size 100, seeking
to offset 200 from the start fails with `cannot-seek` leaving the FCB
unchanged, and seeking to offset 0 from the end returns 100. -/
theorem op_seek_correct_witness :
    op_seek { mode := 0, fpos := 50, size := 100 } 0 200 =
      ({ mode := 0, fpos := 50, size := 100 }, cantseekU32) ∧
    op_seek { mode := 0, fpos := 50, size := 100 } 2 0 =
      ({ mode := 0, fpos := 100, size := 100 }, 100) :=
  ⟨(op_seek_correct { mode := 0, fpos := 50, size := 100 } 0 200
      (Or.inl rfl)).1 (by decide),
   (op_seek_correct { mode := 0, fpos := 50, size := 100 } 2 0
      (Or.inr (Or.inr rfl))).2 (by decide)⟩

/-- C5: a zero-length `op_write` on a live handle truncates the remote
file at the FCB's current position field, sets the FCB size field to that
position, and returns 0; the entry (including the in-driver cursor `pos`)
is untouched and the truncation length comes from the FCB position, not
from `pos` — the equation holds for every value of `fi.pos`. -/
theorem op_write_zero_truncates (env : WriteEnv) (fi : FdInfo) (fcb : Fcb)
    (rem : RemoteFile) (h : env.truncErr = none) :
    op_write env fi fcb rem 0 =
      (0, fi, { fcb with size := fcb.fpos }, { rem with size := fcb.fpos },
       [RemoteOp.ftruncate fcb.fpos]) := by
  simp [op_write, h]

/-- Witness for `op_write_zero_truncates`: open at size 1000, position
500, in-driver cursor 123; the zero-length write truncates to 500, sets
the FCB size to 500 and returns 0. -/
theorem op_write_zero_truncates_witness :
    op_write { truncErr := none, seekErr := none, writeRes := .ok 0 }
      { fcb := 1, fd := 4, pos := 123, unit := 0 }
      { mode := 1, fpos := 500, size := 1000 }
      { size := 1000, off := 123 } 0 =
      (0, { fcb := 1, fd := 4, pos := 123, unit := 0 },
       { mode := 1, fpos := 500, size := 500 },
       { size := 500, off := 123 },
       [RemoteOp.ftruncate 500]) :=
  op_write_zero_truncates
    { truncErr := none, seekErr := none, writeRes := .ok 0 }
    { fcb := 1, fd := 4, pos := 123, unit := 0 }
    { mode := 1, fpos := 500, size := 1000 }
    { size := 1000, off := 123 } rfl

/-- C7: mounting a unit that is already mounted returns `-EEXIST` with no
protocol call made (in particular no context allocation) and the state —
including the unit's existing context and root path — unchanged. -/
theorem op_do_mount_already_mounted (env : MountEnv) (unit : Nat)
    (mnt : MountPayload) (st : MountState)
    (h : (st.rootsmb2.getD unit none).isSome) :
    op_do_mount env unit mnt st = (-(E_EXIST : Int), st, [], none) := by
  unfold op_do_mount
  rw [if_pos h]

/-- Witness for `op_do_mount_already_mounted` on a state with unit 0
mounted. -/
theorem op_do_mount_already_mounted_witness :
    op_do_mount
      { ctxId := 2, initOk := true, parsed := none, resolvedUser := "",
        resolvedPassword := none, connectOk := true, statRes := none,
        mallocOk := true, u2s := fun _ => "" }
      0 { url := "smb://h/s", username := none, password := none,
          username_len := 8 }
      { rootsmb2 := [some 1], rootpath := [some ""], fiStore := [],
        dlStore := [] } =
      (-(E_EXIST : Int),
       { rootsmb2 := [some 1], rootpath := [some ""], fiStore := [],
         dlStore := [] }, [], none) :=
  op_do_mount_already_mounted
    { ctxId := 2, initOk := true, parsed := none, resolvedUser := "",
      resolvedPassword := none, connectOk := true, statRes := none,
      mallocOk := true, u2s := fun _ => "" }
    0 { url := "smb://h/s", username := none, password := none,
        username_len := 8 }
    { rootsmb2 := [some 1], rootpath := [some ""], fiStore := [],
      dlStore := [] } rfl

/-- C6: if any mounted unit is busy (some open host file's
drive-parameter-block pointer equals that unit's), the unmount-all
request returns `-EBUSY` and the whole driver state — contexts, cursors,
file handles and root paths of every unit — is unchanged. -/
theorem op_do_unmountall_busy (tbl : HostFcbTable) (st : MountState)
    (u : Nat) (hu : u < MAXUNIT)
    (hm : (st.rootsmb2.getD u none).isSome)
    (hb : check_dpb_busy tbl u = true) :
    op_do_unmountall tbl st = (-(E_BUSY : Int), st) := by
  unfold op_do_unmountall
  rw [if_pos]
  refine List.any_eq_true.mpr ⟨u, List.mem_range.mpr hu, ?_⟩
  rw [Bool.and_eq_true]
  exact ⟨hm, hb⟩

/-- Witness for `op_do_unmountall_busy`: unit 0 mounted and an open host
file whose DPB pointer is unit 0's. -/
theorem op_do_unmountall_busy_witness :
    op_do_unmountall [some 0]
      { rootsmb2 := [some 1], rootpath := [some ""], fiStore := [],
        dlStore := [] } =
      (-(E_BUSY : Int),
       { rootsmb2 := [some 1], rootpath := [some ""], fiStore := [],
         dlStore := [] }) :=
  op_do_unmountall_busy [some 0]
    { rootsmb2 := [some 1], rootpath := [some ""], fiStore := [],
      dlStore := [] }
    0 (by decide) (by decide) (by decide)

/-- C3 (code bug): the unit-count test of `start` is
`arg >= 1 || arg <= MAXUNIT`, which is satisfied by every value, so
`-u9` and `-u0` — outside the documented range 1..8 of the usage text —
are accepted and install with that unit count instead of exiting with the
usage error (`.error 1`). -/
theorem parseArgs_unit_count_not_range_checked :
    parseArgs startOptsInit ['-', 'u', '9'] =
      .ok { units := 9, heap := 131072, release := false, debuglevel := 0 } ∧
    parseArgs startOptsInit ['-', 'u', '0'] =
      .ok { units := 0, heap := 131072, release := false, debuglevel := 0 } ∧
    parseArgs startOptsInit ['/', 'u', '1', '0', '0'] =
      .ok { units := 100, heap := 131072, release := false,
            debuglevel := 0 } := by
  refine ⟨?_, ?_, ?_⟩ <;> simp [parseArgs, my_atoi, startOptsInit, MAXUNIT]

/-! ## C2: wildcard matching lead-byte range -/

/-- A 21-byte candidate whose first byte is 0xF0: a Shift-JIS lead byte
per the spec's claimed range (0xE0-0xFC) but not per the source's test
(0xE0-0xEF); the following byte is uppercase `A`. -/
def c2cand : List Byte := 0xf0 :: 0x41 :: List.replicate 19 0x61

/-- A 21-byte pattern expecting 0xF0 then lowercase `a`, rest `?`. -/
def c2pat : List Byte := 0xf0 :: 0x61 :: List.replicate 19 0x3f

/-- C2 counterexample: the source's matcher case-folds the byte after
0xF0 (so uppercase `A` matches pattern `a`), while the matcher described
by the claim — lead-byte range 0xE0-0xFC — treats that byte as a trail
byte and does not fold, so the two disagree on this 21-byte pattern and
candidate: the claim's description of the code is false. -/
theorem fname_match_lead_range_cx :
    fname_match c2cand c2pat = true ∧
    matchSpecFC false c2cand c2pat = false ∧
    c2cand.length = 21 ∧ c2pat.length = 21 := by decide

/-- Uppercase ASCII has bit 0x20 clear, so or-ing 0x20 adds it. -/
theorem upper_lor_32 (c : Byte) (h1 : 0x41 ≤ c) (h2 : c ≤ 0x5a) :
    c ||| 0x20 = c + 0x20 := by
  interval_cases c <;> rfl

/-- The `c | f` fold with the running flag `f` equals the spec's
description: fold to lowercase outside a trail byte, identity inside. -/
theorem matchLoop_eq_matchAmended : ∀ (cs ds : List Byte) (t : Bool),
    matchLoop (if t then 0x00 else 0x20) cs ds = matchAmended t cs ds
  | [], ds, t => by cases ds <;> simp [matchLoop, matchAmended]
  | _ :: _, [], _ => by simp [matchLoop, matchAmended]
  | c :: cs, d :: ds, t => by
    rw [matchLoop, matchAmended]
    have hfold :
        (if 0x41 ≤ c ∧ c ≤ 0x5a then c ||| (if t then 0x00 else 0x20) else c)
          = (if t then c else ctolower c) := by
      cases t
      · simp only [Bool.false_eq_true, if_false]
        by_cases hu : 0x41 ≤ c ∧ c ≤ 0x5a
        · rw [if_pos hu, ctolower, if_pos hu, upper_lor_32 c hu.1 hu.2]
        · rw [if_neg hu, ctolower, if_neg hu]
      · simp only [if_true]
        by_cases hu : 0x41 ≤ c ∧ c ≤ 0x5a
        · rw [if_pos hu, Nat.or_zero]
        · rw [if_neg hu]
    rw [hfold]
    have hflag :
        (if (if t then 0x00 else 0x20) ≠ 0x00 ∧ isSjisLead c then 0x00
         else 0x20)
          = (if (!t && isSjisLead c) = true then 0x00 else 0x20) := by
      cases t <;> by_cases hl : isSjisLead c <;> simp [hl]
    by_cases hg : d ≠ 0x3f ∧ (if t then c else ctolower c) ≠ d
    · rw [if_pos hg, if_pos hg]
    · rw [if_neg hg, if_neg hg, hflag]
      exact matchLoop_eq_matchAmended cs ds (!t && isSjisLead c)

/-- C2 amended: for every pattern and candidate, `dl_readdir`'s byte-wise
comparison behaves exactly as the spec describes it — `?` matches one
byte, uppercase ASCII candidate bytes are lowered unless the current byte
is the trail byte of a legacy two-byte sequence — with the lead-byte
range 0x81-0x9F and 0xE0-0xEF (not 0xE0-0xFC). -/
theorem fname_match_eq_amended (w2 fname : List Byte) :
    fname_match w2 fname = matchAmended false w2 fname := by
  have h := matchLoop_eq_matchAmended w2 fname false
  simpa [fname_match] using h

/-! ## C1: synthetic volume-label emission -/

/-- The result-emission loop never produces an entry through the
synthetic volume-label branch. -/
theorem dl_scan_volLabel_false (dl : DirList) (l : List Dirent) :
    (dl_scan dl l).volLabel = false := by
  induction l with
  | nil => rfl
  | cons d rest ih =>
    rw [dl_scan]
    repeat first | rfl | exact ih | split | simp only []

/-- The result-emission loop never changes the `isfirst` flag. -/
theorem dl_scan_isfirst (dl : DirList) (l : List Dirent) :
    (dl_scan dl l).dl.isfirst = dl.isfirst := by
  induction l with
  | nil => rfl
  | cons d rest ih =>
    rw [dl_scan]
    repeat first | rfl | exact ih | split | simp only []

/-- C1 amended: one `dl_readdir` call emits the synthetic volume-label
entry (attribute 0x08, zero size and time, name = the Unicode-to-legacy
encoding of `host_path` bounded by the buffer) exactly when it is the
first call of the cursor, the directory is the virtual root, the
attribute mask includes bit 0x08, and the FIRST byte of the pattern's
stem and the first byte of its extension part (index 18) are `?` — not
when the whole 21-byte pattern is `?`s, which the source does not check —
and every call leaves `isfirst` false, so no later call of the cursor can
emit the synthetic label. -/
theorem dl_readdir_volume_label (u2s : String → List Byte) (dl : DirList) :
    ((dl_readdir u2s dl).volLabel = true ↔
      (dl.isfirst ∧ dl.isroot ∧ dl.attr &&& 0x08 ≠ 0 ∧
       dl.fname.getD 0 0 = 0x3f ∧ dl.fname.getD 18 0 = 0x3f)) ∧
    ((dl_readdir u2s dl).volLabel = true →
       (dl_readdir u2s dl).info = some
         { atr := 0x08, time := 0, date := 0, filelen := 0,
           name := (u2s dl.hostpath).take 21 }) ∧
    (dl_readdir u2s dl).dl.isfirst = false := by
  unfold dl_readdir
  by_cases h : dl.isfirst ∧ dl.isroot ∧ dl.attr &&& 0x08 ≠ 0 ∧
      dl.fname.getD 0 0 = 0x3f ∧ dl.fname.getD 18 0 = 0x3f
  · rw [if_pos h]
    exact ⟨iff_of_true rfl h, fun _ => rfl, rfl⟩
  · rw [if_neg h]
    refine ⟨iff_of_false ?_ h, ?_, ?_⟩
    · simp [dl_scan_volLabel_false]
    · intro hv
      rw [dl_scan_volLabel_false] at hv
      exact absurd hv (by simp)
    · rw [dl_scan_isfirst]

/-- Oracle converter for the C1 instances: legacy-to-Unicode translation
returning the empty remote path. -/
def c1s2u : List Byte → Option String := fun _ => some ""

/-- Oracle converter for the C1 instances: Unicode-to-legacy conversion
of the host path writing one byte `X`. -/
def c1u2s : String → List Byte := fun _ => [0x58]

/-- A find-first request at the virtual root whose pattern is
`?a??????` + automatic `?` fill + extension `???`: it starts and ends
with `?` but is not all-wildcards. -/
def c1ns : Namebuf :=
  { path := 0x09 :: List.replicate 64 0,
    name1 := [0x3f, 0x61, 0x3f, 0x3f, 0x3f, 0x3f, 0x3f, 0x3f],
    name2 := List.replicate 10 0,
    ext := [0x3f, 0x3f, 0x3f] }

/-- The cursor `dl_opendir` builds for that request on a mounted unit
with an empty remote directory, mask 0x08, key 1000. -/
def c1open : Except Nat DirList :=
  dl_opendir (some "") c1s2u true (.ok []) 1000 0 c1ns 0x08

/-- C1 counterexample: on the first call of this cursor — at the virtual
root, mask including 0x08 — the synthetic volume-label entry (attribute
0x08) IS emitted although the 21-byte pattern is `?a????????????????.???`,
not all `?`: pattern byte 1 is `a` (0x61).  The claim's "if and only if
the pattern consists entirely of `?`" is false on the code. -/
theorem dl_readdir_volume_label_cx :
    c1open.map (fun dl =>
      ((dl_readdir c1u2s dl).volLabel,
       (dl_readdir c1u2s dl).info.map (fun i => i.atr),
       dl.isfirst, dl.isroot, dl.attr,
       dl.fname.getD 1 0,
       decide (dl.fname = List.replicate 21 0x3f)))
      = .ok (true, some 0x08, true, true, 0x08, 0x61, false) := by
  rfl

/-- Witness for `dl_readdir_volume_label`: a first call at the root with
mask 0x08 and the all-wildcards pattern emits the volume label. -/
theorem dl_readdir_volume_label_witness :
    (dl_readdir c1u2s
      { filep := 1, unit := 0, isroot := true, isfirst := true,
        attr := 0x08, fname := List.replicate 21 0x3f, hostpath := "",
        dirOpen := true, entries := [] }).volLabel = true :=
  (dl_readdir_volume_label c1u2s
    { filep := 1, unit := 0, isroot := true, isfirst := true,
      attr := 0x08, fname := List.replicate 21 0x3f, hostpath := "",
      dirOpen := true, entries := [] }).1.mpr
    (by refine ⟨rfl, rfl, by decide, by decide, by decide⟩)

/-! ## C8: read/write cursor reconciliation -/

/-- C8: on every successful `op_read` or `op_write` (non-zero length),
the returned status is the byte count, the in-driver cursor `pos` equals
the post-operation offset (entry FCB position + bytes transferred) and
equals the value written back into the FCB position field; and a remote
seek to the FCB position is issued before the transfer exactly when the
FCB position differed from `pos` at entry. -/
theorem op_rw_pos_reconcile (fi : FdInfo) (fcb : Fcb) (rem : RemoteFile)
    (len b : Nat) (renv : ReadEnv) (wenv : WriteEnv) :
    (renv.readRes = .ok b →
     (fi.pos ≠ fcb.fpos → renv.seekErr = none) →
     fcb.fpos + b < 4294967296 →
       (op_read renv fi fcb rem len).1 = (b : Int) ∧
       (op_read renv fi fcb rem len).2.1.pos = fcb.fpos + b ∧
       (op_read renv fi fcb rem len).2.2.1.fpos = fcb.fpos + b ∧
       (op_read renv fi fcb rem len).2.2.2.2 =
         (if fi.pos ≠ fcb.fpos then [RemoteOp.lseek fcb.fpos] else []) ++
           [RemoteOp.readBytes len]) ∧
    (len ≠ 0 → wenv.writeRes = .ok b →
     (fi.pos ≠ fcb.fpos → wenv.seekErr = none) →
     fcb.fpos + b < 4294967296 →
       (op_write wenv fi fcb rem len).1 = (b : Int) ∧
       (op_write wenv fi fcb rem len).2.1.pos = fcb.fpos + b ∧
       (op_write wenv fi fcb rem len).2.2.1.fpos = fcb.fpos + b ∧
       (op_write wenv fi fcb rem len).2.2.2.2 =
         (if fi.pos ≠ fcb.fpos then [RemoteOp.lseek fcb.fpos] else []) ++
           [RemoteOp.writeBytes len]) := by
  constructor
  · intro hread hseek hlt
    by_cases hsk : fi.pos = fcb.fpos
    · simp [op_read, hsk, hread, Nat.mod_eq_of_lt hlt]
    · have hse := hseek hsk
      simp [op_read, hsk, hse, hread, Nat.mod_eq_of_lt hlt]
  · intro hlen hwrite hseek hlt
    by_cases hsk : fi.pos = fcb.fpos
    · simp [op_write, hlen, hsk, hwrite, Nat.mod_eq_of_lt hlt]
    · have hse := hseek hsk
      simp [op_write, hlen, hsk, hse, hwrite, Nat.mod_eq_of_lt hlt]

/-- Witness for `op_rw_pos_reconcile`: a read of 10 bytes at FCB position
100 with stale cursor 40 seeks to 100 first and ends with cursor and FCB
position 110. -/
theorem op_rw_pos_reconcile_witness :
    (op_read { seekErr := none, readRes := .ok 10 }
       { fcb := 1, fd := 4, pos := 40, unit := 0 }
       { mode := 0, fpos := 100, size := 200 }
       { size := 200, off := 40 } 10).2.1.pos = 110 :=
  ((op_rw_pos_reconcile
      { fcb := 1, fd := 4, pos := 40, unit := 0 }
      { mode := 0, fpos := 100, size := 200 }
      { size := 200, off := 40 } 10 10
      { seekErr := none, readRes := .ok 10 }
      { truncErr := none, seekErr := none, writeRes := .ok 10 }).1
    rfl (fun _ => rfl) (by decide)).2.1

/-! ## C10: chdir to the virtual root -/

/-- C10: a chdir whose packed-name path is exactly the single separator
byte succeeds immediately — no path translation, no mount check, no
remote call — even on an unmounted unit; any other path on an unmounted
unit fails with no-such-directory (also without a remote call, since
translation fails first). -/
theorem op_chdir_virtual_root (rootpath : Option String)
    (s2u : List Byte → Option String) (statO : String → Option StatRes)
    (ns : Namebuf) :
    (isRootPath ns.path = true →
       op_chdir rootpath s2u statO ns = (0, [])) ∧
    (isRootPath ns.path = false → rootpath = none →
       op_chdir rootpath s2u statO ns = (DOSE_NODIR, [])) := by
  constructor
  · intro h
    simp [op_chdir, h]
  · intro h hrp
    simp [op_chdir, h, hrp, conv_namebuf]

/-- Witness for `op_chdir_virtual_root`: on an unmounted unit, chdir to
the root path succeeds with no remote call, and chdir to the path `A`
fails with no-such-directory. -/
theorem op_chdir_virtual_root_witness :
    op_chdir none c1s2u (fun _ => none)
      { path := 0x09 :: List.replicate 64 0, name1 := List.replicate 8 0x20,
        name2 := List.replicate 10 0, ext := List.replicate 3 0x20 } =
      (0, []) ∧
    op_chdir none c1s2u (fun _ => none)
      { path := 0x41 :: List.replicate 64 0, name1 := List.replicate 8 0x20,
        name2 := List.replicate 10 0, ext := List.replicate 3 0x20 } =
      (DOSE_NODIR, []) :=
  ⟨(op_chdir_virtual_root none c1s2u (fun _ => none)
      { path := 0x09 :: List.replicate 64 0, name1 := List.replicate 8 0x20,
        name2 := List.replicate 10 0, ext := List.replicate 3 0x20 }).1
      (by decide),
   (op_chdir_virtual_root none c1s2u (fun _ => none)
      { path := 0x41 :: List.replicate 64 0, name1 := List.replicate 8 0x20,
        name2 := List.replicate 10 0, ext := List.replicate 3 0x20 }).2
      (by decide) rfl⟩

end Smbfs
